import Mathlib

/-!
Verification of `submit.py` (job-submission front end for Slurm/PBS).
Shallow embedding of the script's core functions as Lean definitions,
followed by theorems checking the specification's claims.

Conventions:
* Python strings are Lean `String`s; line-oriented file contents are
  `List String` (one element per `for row in f` iteration, each row
  keeping its trailing newline where the Python row has one).
* The filesystem is an explicit `Env` record (`os.path.isfile`,
  `os.path.isdir`, file contents).
* Mutations of the `Submit` object's fields are modelled by returning an
  updated `SubState`.
-/

namespace SubmitPy

/-- Whitespace set of Python `str.strip()` (ASCII part; the scripts at
hand contain no exotic Unicode whitespace). -/
def isWS (c : Char) : Bool :=
  c = ' ' || c = '\t' || c = '\n' || c = '\r' || c = '\x0b' || c = '\x0c'

/-- Right-strip of a character list with predicate `p`. -/
def rstripWith (p : Char → Bool) (l : List Char) : List Char :=
  (l.reverse.dropWhile p).reverse

/-- Model of Python `str.strip()` on the character list of a string. -/
def pyStripL (l : List Char) : List Char :=
  rstripWith isWS (l.dropWhile isWS)

/-- Model of Python `str.split(c)` for a one-character separator:
splits at every occurrence of `c`, keeping empty pieces. -/
def splitOnChar (c : Char) : List Char → List (List Char)
  | [] => [[]]
  | a :: t =>
    let r := splitOnChar c t
    if a = c then [] :: r
    else (a :: r.headD []) :: r.tail

/-- Substring test (`pat` occurs contiguously in `s`), used to state
facts about composed command strings. -/
def containsSub (pat : List Char) : List Char → Bool
  | [] => pat.isEmpty
  | c :: t => pat.isPrefixOf (c :: t) || containsSub pat t

/-- Replace the first occurrence of `'@'` by `v`, leaving the rest
unchanged: model of `s[0:p] + v + s[p+1:]` with `p = s.find("@")`
(`submit.py` lines 388-390). -/
def replFirstAt (v : List Char) : List Char → List Char
  | [] => []
  | c :: t => if c = '@' then v ++ t else c :: replFirstAt v t

/-- Model of `os.path.split(p)[1]`: the part after the last `/`. -/
def pyBasename (s : String) : String :=
  ⟨(s.data.reverse.takeWhile (fun c => !(c = '/'))).reverse⟩

/-- Model of `file.readline()` on a whole-stream string: everything up
to and including the first newline. -/
def takeLine : List Char → List Char
  | [] => []
  | c :: t => if c = '\n' then [c] else c :: takeLine t

/-- Model of Python `s.rstrip("\r\n")`. -/
def pyRstripCRLF (s : String) : String :=
  ⟨rstripWith (fun c => c = '\r' || c = '\n') s.data⟩

/-- Numeric value of a digit list (most significant first). -/
def digitsVal (l : List Char) : Nat :=
  l.foldl (fun n c => 10 * n + (c.toNat - '0'.toNat)) 0

/-- Model of Python `int(s)` for plain decimal strings: surrounding
whitespace is stripped, an optional sign is allowed, and at least one
digit is required; anything else raises `ValueError` (`none` here).
(Python additionally accepts `_` digit separators, never produced by a
scheduler and not modelled.) -/
def pyInt? (s : String) : Option Int :=
  match pyStripL s.data with
  | '-' :: ds =>
    if ds ≠ [] ∧ ds.all Char.isDigit then some (-(digitsVal ds : Int)) else none
  | '+' :: ds =>
    if ds ≠ [] ∧ ds.all Char.isDigit then some (digitsVal ds : Int) else none
  | ds =>
    if ds ≠ [] ∧ ds.all Char.isDigit then some (digitsVal ds : Int) else none

/-- Concatenation of rows as written by successive `out.write(row)`. -/
def catLines : List String → String
  | [] => ""
  | r :: rs => r ++ catLines rs

/-- Python truthiness of an optional-string field (`None` and `""` are
falsy). -/
def strTruthy : Option String → Bool
  | none => false
  | some s => !(s = "")

/-! ## Data model -/

/-- Scheduler mode (`submit.py` line 44: `mode = "slurm"  # Or "pbs"`). -/
inductive SMode where
  | slurm : SMode
  | pbs : SMode
deriving DecidableEq

/-- Scheduler directive prefix, `DEFAULTS[mode]['directive']`
(`submit.py` lines 644-654). -/
def directive : SMode → String
  | .slurm => "#SBATCH"
  | .pbs => "#PBS"

/-- Scheduler job-id variable, `DEFAULTS[mode]['jobid']`
(`submit.py` lines 644-654). -/
def jobidVar : SMode → String
  | .slurm => "${SLURM_JOBID}"
  | .pbs => "${PBS_JOBID}"

/-- Fields of the `Submit` object relevant to composition, decoration
and logging (`submit.py` lines 43-66), with their class-level default
values. `dirname` stands for `os.path.dirname(__file__)`. -/
structure SubState where
  mode : SMode := .slurm
  dry : Bool := false
  debug : Nat := 0
  decorate : Bool := true
  doneFile : Option String := none
  array : Option String := none
  comment : Option String := none
  queue : Option String := none
  coptions : List String := []
  foptions : Option String := none
  fileArray : Option String := none
  arrayArgs : Bool := false
  sendEmail : Option String := none
  emailAlways : Bool := false
  logdir : Option String := none
  confFile : String := ".sbatchrc"
  logFile : String := "../lib/submit.log"
  trueArgs : List String := []
  afterArgs : List String := []
  scriptLibrary : List String := []
  dirname : String := ""
deriving DecidableEq

/-- Explicit filesystem environment: `files p` is `some` of the list of
lines of file `p` when `os.path.isfile(p)` holds, `none` otherwise;
`isdir` is `os.path.isdir`. -/
structure Env where
  files : String → Option (List String)
  isdir : String → Bool

/-- Model of `countLines` (`submit.py` lines 27-32): the number of
lines iterated over when opening `filename`. -/
def countLines (env : Env) (filename : String) : Nat :=
  ((env.files filename).getD []).length

/-- Model of `parseDirList` (`submit.py` lines 34-39). -/
def parseDirList (env : Env) (dl : String) : List String :=
  (dl.splitOn ":").filter env.isdir

/-! ## Argument intake: `Submit.parseArgs` (`submit.py` lines 220-339) -/

/-- Sub-mode selected during the option loop (`mode` local of
`parseArgs`). -/
inductive PMode where
  | submit : PMode
  | list : PMode
  | lookup : PMode
  | email : PMode
deriving DecidableEq

/-- Loop state of `parseArgs`: the `mode`, `after` and `prev` locals
plus the mutated `Submit` object. -/
structure LoopSt where
  pmode : PMode := .submit
  after : Bool := false
  prev : String := ""
  st : SubState := {}

/-- Result of one loop iteration: continue with an updated state, or an
early `return False` (the `-h`/`--help` and `-v`/`-vv`/`-vvv`
branches). -/
inductive StepRes where
  | cont : LoopSt → StepRes
  | stop : StepRes

/-- The `valuedArgs` list of `parseArgs` (`submit.py` line 224). -/
def valuedArgs : List String :=
  ["-v", "-vv", "-vvv", "-conf", "-after", "-done", "-n", "-p", "-q",
   "-t", "-T", "-A", "-o", "-lib", "-log", "-mode", "-m", "-M", "-l"]

/-- One iteration of the `for a in args` loop of `parseArgs`
(`submit.py` lines 230-307), branch for branch in source order. -/
def pstep (env : Env) (l : LoopSt) (a : String) : StepRes :=
  if l.after then
    .cont { l with st := { l.st with trueArgs := l.st.trueArgs ++ [a] } }
  else if a = "-ls" then .cont { l with pmode := .list }
  else if a = "-w" then .cont { l with pmode := .lookup }
  else if a = "-em" then .cont { l with pmode := .email }
  else if a = "-n" then .cont { l with st := { l.st with decorate := false } }
  else if a = "-x" then .cont { l with st := { l.st with dry := true } }
  else if a = "-d" then .cont { l with st := { l.st with debug := 1 } }
  else if a = "-dd" then .cont { l with st := { l.st with debug := 2 } }
  else if a = "-h" ∨ a = "--help" then .stop
  else if l.prev = "-mode" then .cont { l with prev := "" }
  else if l.prev = "-v" ∨ l.prev = "-vv" ∨ l.prev = "-vvv" then .stop
  else if l.prev = "-conf" then
    .cont { l with prev := "", st := { l.st with confFile := a } }
  else if l.prev = "-after" then
    .cont { l with prev := "",
                   st := { l.st with afterArgs :=
             if a ≠ "0" then l.st.afterArgs ++ [a] else l.st.afterArgs } }
  else if l.prev = "-done" then
    .cont { l with prev := "", st := { l.st with doneFile := some a } }
  else if l.prev = "-p" then
    .cont { l with prev := "", st := { l.st with comment := some a } }
  else if l.prev = "-q" then
    .cont { l with prev := "", st := { l.st with queue := some a } }
  else if l.prev = "-t" then
    .cont { l with prev := "", st := { l.st with array := some a } }
  else if l.prev = "-T" then
    .cont { l with prev := "", st := { l.st with fileArray := some a } }
  else if l.prev = "-A" then
    .cont { l with prev := "",
                   st := { l.st with fileArray := some a, arrayArgs := true } }
  else if l.prev = "-o" then
    .cont { l with prev := "",
                   st := { l.st with coptions := l.st.coptions ++ [a.replace "," " "] } }
  else if l.prev = "-lib" then
    .cont { l with prev := "", st := { l.st with scriptLibrary := parseDirList env a } }
  else if l.prev = "-log" then
    .cont { l with prev := "", st := { l.st with logFile := a } }
  else if l.prev = "-m" then
    .cont { l with prev := "", st := { l.st with sendEmail := some a } }
  else if l.prev = "-M" then
    .cont { l with prev := "",
                   st := { l.st with sendEmail := some a, emailAlways := true } }
  else if l.prev = "-l" then
    .cont { l with prev := "", st := { l.st with logdir := some a } }
  else if a ∈ valuedArgs then .cont { l with prev := a }
  else if a = "-W" then
    .cont { l with st := { l.st with coptions := l.st.coptions ++ ["-W"] } }
  else
    .cont { l with after := true,
                   st := { l.st with trueArgs := l.st.trueArgs ++ [a] } }

/-- The whole `for a in args` loop; `none` models the early
`return False` exits. -/
def ploop (env : Env) : LoopSt → List String → Option LoopSt
  | l, [] => some l
  | l, a :: rest =>
    match pstep env l a with
    | .cont l2 => ploop env l2 rest
    | .stop => none

/-- Outcome of `parseArgs`: proceed to submission with the gathered
state (`return True`), stop without submitting (`return False`: usage,
list/lookup/email modes, script view), or `sys.exit(code)`. -/
inductive PResult where
  | ok : SubState → PResult
  | finished : PResult
  | exit : Nat → PResult
deriving DecidableEq

/-- File-array post-processing of `parseArgs` (`submit.py` lines
321-331): split the `-T`/`-A` argument on `%`, require the named file
to exist (`sys.exit(3)` otherwise), set `array` to `"1-N"` for its `N`
lines plus the `%` suffix when one was given, and reset `fileArray` to
the bare file name. -/
def processFileArray (env : Env) (s : SubState) : Except Nat SubState :=
  if strTruthy s.fileArray then
    let parts := splitOnChar '%' (s.fileArray.getD "").data
    let faname : String := ⟨parts.headD []⟩
    if (env.files faname).isNone then .error 3
    else
      let njobs := countLines env faname
      let arr0 := "1-" ++ toString njobs
      let arr := if parts.length > 1 then arr0 ++ "%" ++ (⟨parts[1]?.getD []⟩ : String) else arr0
      .ok { s with array := some arr, fileArray := some faname }
  else .ok s

/-- Model of `Submit.parseArgs` (`submit.py` lines 220-339): empty
argument list shows usage and returns `False`; the option loop may
return early; the list/lookup/email modes return `False` after their
action; then the file-array block runs, and finally a missing script
name is `sys.exit(4)`. -/
def parseArgs (env : Env) (args : List String) : PResult :=
  if args = [] then .finished
  else
    match ploop env {} args with
    | none => .finished
    | some l =>
      match l.pmode with
      | .list => .finished
      | .lookup => .finished
      | .email => .finished
      | .submit =>
        match processFileArray env l.st with
        | .error n => .exit n
        | .ok s2 => if s2.trueArgs ≠ [] then .ok s2 else .exit 4

/-- Projection: the `afterArgs` gathered by a successful `parseArgs`. -/
def resAfter : PResult → List String
  | .ok s => s.afterArgs
  | _ => []

/-! ## Script decoration: `Submit.decorateScript` (`submit.py` lines 365-401) -/

/-- Header test of the decoration state machine (`submit.py` lines
371-372): the stripped row is empty, starts with `#!`, or starts with
the scheduler directive prefix. -/
def isHeaderLine (m : SMode) (row : String) : Bool :=
  let s := pyStripL row.data
  s.isEmpty || "#!".data.isPrefixOf s || (directive m).data.isPrefixOf s

/-- File-array extraction line injected before the first body line
(`submit.py` lines 380-384): args mode fills `JOB_FILEARRAY_ARGS`,
line mode fills `JOB_FILEARRAY_LINE`. -/
def fileArrayLine (s : SubState) : String :=
  if s.arrayArgs then
    "JOB_FILEARRAY_ARGS=($(sed \"${SLURM_ARRAY_TASK_ID}q;d\" " ++ s.fileArray.getD "" ++ "))\n"
  else
    "JOB_FILEARRAY_LINE=$(sed \"${SLURM_ARRAY_TASK_ID}q;d\" " ++ s.fileArray.getD "" ++ ")\n"

/-- Instrumentation block written when the first non-header line is
met (`submit.py` lines 376-384), in source order: blank line + echo of
the reconstructed command line, echo of the start timestamp, capture
of the working directory, capture of the start epoch (followed by a
blank line), then the file-array extraction when requested. -/
def instrBlock (s : SubState) : String :=
  "\necho %Commandline: " ++ String.intercalate " " s.trueArgs ++ "\n"
  ++ "echo %Started: `date`\n"
  ++ "_ORIG_PWD=$PWD\n"
  ++ "_SUBMIT_TS=$(date +%s)\n\n"
  ++ (if strTruthy s.fileArray then fileArrayLine s else "")

/-- Done-file name substitution (`submit.py` lines 388-390): the first
`@` is replaced by the scheduler's job-id variable. -/
def substDoneFile (m : SMode) (df : String) : String :=
  ⟨replFirstAt (jobidVar m).data df.data⟩

/-- Notification self-invocation line (`submit.py` lines 396-400):
unconditional when `emailAlways` is set, otherwise guarded on a
non-zero return code. -/
def emailPart (s : SubState) : String :=
  if strTruthy s.sendEmail then
    if s.emailAlways then
      s.dirname ++ "/submit -em " ++ s.sendEmail.getD ""
      ++ " $SLURM_JOB_ID $_RETCODE $(($_SUBMIT_TS2 - $_SUBMIT_TS)) $_ORIG_PWD \""
      ++ String.intercalate " " s.trueArgs ++ "\"\n"
    else
      "if [[ \"$_RETCODE\" != \"0\" ]]; then " ++ s.dirname ++ "/submit -em "
      ++ s.sendEmail.getD ""
      ++ " $SLURM_JOB_ID $_RETCODE $(($_SUBMIT_TS2 - $_SUBMIT_TS)) $ORIG_PWD \""
      ++ String.intercalate " " s.trueArgs ++ "\"; fi\n"
  else ""

/-- Trailer lines following the done-file line (`submit.py` lines
393-401). -/
def trailerRest (s : SubState) : String :=
  "echo %Terminated: `date`\n"
  ++ "_SUBMIT_TS2=$(date +%s)\n"
  ++ "echo %Elapsed: $(($_SUBMIT_TS2 - $_SUBMIT_TS)) seconds\n"
  ++ emailPart s
  ++ "exit $_RETCODE\n"

/-- Trailer written after all input rows (`submit.py` lines 386-401):
exit-code capture, optional done-file write, termination timestamp,
elapsed-seconds report, optional notification, explicit exit. -/
def trailer (s : SubState) : String :=
  "_RETCODE=$?\n"
  ++ (if strTruthy s.doneFile then
        "echo $_RETCODE > " ++ substDoneFile s.mode (s.doneFile.getD "") ++ "\n"
      else "")
  ++ trailerRest s

/-- The row loop of `decorateScript` (`submit.py` lines 369-385): pass
header rows through, emit the instrumentation block before the first
non-header row, then copy the remaining rows verbatim. -/
def decorateLines (s : SubState) : Bool → List String → String
  | _, [] => ""
  | true, r :: rs =>
    if isHeaderLine s.mode r then r ++ decorateLines s true rs
    else instrBlock s ++ (r ++ decorateLines s false rs)
  | false, r :: rs => r ++ decorateLines s false rs

/-- Model of `Submit.decorateScript` (`submit.py` lines 365-401) as a
function from the input rows to the byte stream written to `out`. -/
def decorateScript (s : SubState) (rows : List String) : String :=
  decorateLines s true rows ++ trailer s

/-! ## Command composition: `Submit.makeCmdline` (`submit.py` lines 413-442) -/

/-- In-place quoting applied to every positional argument containing a
space (`submit.py` lines 438-440). -/
def quoteIfSpace (a : String) : String :=
  if a.data.contains ' ' then "\"" ++ a ++ "\"" else a

/-- The `filename` local of `makeCmdline` (`submit.py` line 415). -/
def filenameOf (s : SubState) : String :=
  pyBasename (s.trueArgs.headD "")

/-- The `logdir` local of `makeCmdline` (`submit.py` lines 416-419):
explicit override, else `log/` when that directory exists, else
nothing. -/
def logdirOf (env : Env) (s : SubState) : String :=
  if strTruthy s.logdir then s.logdir.getD "" ++ "/"
  else if env.isdir "log" then "log/" else ""

/-- Output/error/array clause (`submit.py` lines 422-425). -/
def outErrClause (env : Env) (s : SubState) : String :=
  if strTruthy s.array then
    " -o " ++ logdirOf env s ++ filenameOf s ++ ".o%A_%a -e "
    ++ logdirOf env s ++ filenameOf s ++ ".e%A_%a -a " ++ s.array.getD ""
  else
    " -o " ++ logdirOf env s ++ filenameOf s ++ ".IN.o%j -e "
    ++ logdirOf env s ++ filenameOf s ++ ".IN.e%j"

/-- Comment clause (`submit.py` lines 426-427). -/
def commentClause (s : SubState) : String :=
  if strTruthy s.comment then " --comment \"" ++ s.comment.getD "" ++ "\"" else ""

/-- Dependency clause (`submit.py` lines 428-430): one `afterok:<id>`
per entry of `afterArgs`, comma-joined; nothing when the list is
empty. -/
def depClause (afterArgs : List String) : String :=
  if afterArgs.isEmpty then ""
  else " -d " ++ String.intercalate "," (afterArgs.map (fun a => "afterok:" ++ a))

/-- Queue clause (`submit.py` lines 431-432). -/
def queueClause (s : SubState) : String :=
  if strTruthy s.queue then " -A " ++ s.queue.getD "" else ""

/-- Config-file options clause (`submit.py` lines 433-434). -/
def foptClause (s : SubState) : String :=
  if strTruthy s.foptions then " " ++ s.foptions.getD "" else ""

/-- Command-line `-o` options clause (`submit.py` lines 435-436). -/
def coptClause (s : SubState) : String :=
  if !s.coptions.isEmpty then " " ++ String.intercalate " " s.coptions else ""

/-- Model of `Submit.makeCmdline` (`submit.py` lines 413-442): the
composed command string, plus the object state after the call (the
method rewrites `self.trueArgs`, quoting in place every argument that
contains a space, before joining the arguments after the script name
onto the tail of the command). -/
def makeCmdline (env : Env) (s : SubState) : String × SubState :=
  ("sbatch --parsable -D \"`pwd`\" -J " ++ s.trueArgs.headD ""
    ++ outErrClause env s ++ commentClause s ++ depClause s.afterArgs
    ++ queueClause s ++ foptClause s ++ coptClause s
    ++ " /dev/stdin "
    ++ String.intercalate " " ((s.trueArgs.map quoteIfSpace).drop 1),
   { s with trueArgs := s.trueArgs.map quoteIfSpace })

/-- Everything of the composed command before the dependency clause. -/
def cmdPre (env : Env) (s : SubState) : String :=
  "sbatch --parsable -D \"`pwd`\" -J " ++ s.trueArgs.headD ""
  ++ outErrClause env s ++ commentClause s

/-- Everything of the composed command after the dependency clause. -/
def cmdPost (s : SubState) : String :=
  queueClause s ++ foptClause s ++ coptClause s
  ++ " /dev/stdin "
  ++ String.intercalate " " ((s.trueArgs.map quoteIfSpace).drop 1)

/-- Projection: the command composed from the state of a successful
`parseArgs` run. -/
def resCmd (env : Env) : PResult → String
  | .ok s => (makeCmdline env s).1
  | _ => ""

/-! ## Log records: `Submit.writeLogEntry` (`submit.py` lines 81-94) -/

/-- A `datetime` value as far as `isoformat(sep)` is concerned: the
date part and the time part as strings. -/
structure PyDatetime where
  dateStr : String
  timeStr : String

/-- Model of `datetime.isoformat(sep)`: date, the one-character
separator, time. -/
def isoformat (d : PyDatetime) (sep : String) : String :=
  d.dateStr ++ sep ++ d.timeStr

/-- The record appended by `Submit.writeLogEntry` (`submit.py` line
90): `now.isoformat('\t') + '\t' + str(jobid) + "\t" + user + '\t' +
basename(script) + "\t" + cwd + '\n'`. -/
def logRecord (now : PyDatetime) (jobid : Int) (user script cwd : String) : String :=
  isoformat now "\t" ++ "\t" ++ toString jobid ++ "\t" ++ user ++ "\t"
  ++ pyBasename script ++ "\t" ++ cwd ++ "\n"

/-! ## Submission execution: `Submit.submitScript` (`submit.py` lines 451-469) -/

/-- Outcome of `submitScript`: `exited n` models `sys.exit(n)`,
`jobid` the returned integer, `valueError` the `ValueError` raised by
`int()` on a non-numeric first line (caught by the top-level handler,
which reports it and exits with status 6). -/
inductive SubmitOutcome where
  | exited : Nat → SubmitOutcome
  | jobid : Int → SubmitOutcome
  | valueError : String → SubmitOutcome
deriving DecidableEq

/-- Model of the result handling of `Submit.submitScript` (`submit.py`
lines 462-469) as a function of the spawned process's output and error
channel contents: the first output line is stripped of `\r\n`; any
error-channel content means `sys.exit(2)`; otherwise the line is
parsed with `int()`. -/
def submitScript (stdoutStr stderrStr : String) : SubmitOutcome :=
  let result := pyRstripCRLF ⟨takeLine stdoutStr.data⟩
  if stderrStr ≠ "" then .exited 2
  else
    match pyInt? result with
    | some n => .jobid n
    | none => .valueError result

/-! ## Helper lemmas -/

theorem strExt {a b : String} (h : a.data = b.data) : a = b := by
  cases a; cases b; exact congrArg String.mk h

theorem dropWhile_append_all {p : Char → Bool} {w : List Char} (r : List Char)
    (h : ∀ c ∈ w, p c = true) : (w ++ r).dropWhile p = r.dropWhile p := by
  induction w with
  | nil => rfl
  | cons a t ih =>
    have ha : p a = true := h a (by simp)
    simp [List.dropWhile, ha]
    exact ih (fun c hc => h c (by simp [hc]))

theorem dropWhile_all_nil {p : Char → Bool} {l : List Char}
    (h : ∀ c ∈ l, p c = true) : l.dropWhile p = [] := by
  induction l with
  | nil => rfl
  | cons a t ih =>
    have ha : p a = true := h a (by simp)
    have ht : ∀ c ∈ t, p c = true := fun c hc => h c (by simp [hc])
    simpa [List.dropWhile, ha] using ih ht

theorem pyStripL_ws_prefix {w : List Char} (r : List Char)
    (h : ∀ c ∈ w, isWS c = true) : pyStripL (w ++ r) = pyStripL r := by
  unfold pyStripL
  rw [dropWhile_append_all r h]

theorem pyStripL_all_ws {l : List Char} (h : ∀ c ∈ l, isWS c = true) :
    pyStripL l = [] := by
  unfold pyStripL rstripWith
  rw [dropWhile_all_nil h]
  rfl

theorem splitOnChar_ne {c : Char} {l : List Char} (h : c ∉ l) :
    splitOnChar c l = [l] := by
  induction l with
  | nil => rfl
  | cons a t ih =>
    have ha : ¬ a = c := by
      intro e; exact h (by simp [e])
    have ht : c ∉ t := fun e => h (by simp [e])
    simp [splitOnChar, ha, ih ht]

theorem splitOnChar_append {c : Char} {a : List Char} (r : List Char) (h : c ∉ a) :
    splitOnChar c (a ++ c :: r) = a :: splitOnChar c r := by
  induction a with
  | nil => simp [splitOnChar]
  | cons x xs ih =>
    have hx : ¬ x = c := by
      intro e; exact h (by simp [e])
    have hxs : c ∉ xs := fun e => h (by simp [e])
    simp [splitOnChar, hx, ih hxs]

theorem replFirstAt_not_mem {v l : List Char} (h : '@' ∉ l) :
    replFirstAt v l = l := by
  induction l with
  | nil => rfl
  | cons a t ih =>
    have ha : ¬ a = '@' := by
      intro e; exact h (by simp [e])
    have ht : '@' ∉ t := fun e => h (by simp [e])
    simp [replFirstAt, ha, ih ht]

theorem replFirstAt_first {v p : List Char} (q : List Char) (h : '@' ∉ p) :
    replFirstAt v (p ++ '@' :: q) = p ++ v ++ q := by
  induction p with
  | nil => simp [replFirstAt]
  | cons x xs ih =>
    have hx : ¬ x = '@' := by
      intro e; exact h (by simp [e])
    have hxs : '@' ∉ xs := fun e => h (by simp [e])
    simp [replFirstAt, hx, ih hxs]

theorem map_quoteIfSpace_id {l : List String}
    (h : ∀ a ∈ l, a.data.contains ' ' = false) : l.map quoteIfSpace = l := by
  induction l with
  | nil => rfl
  | cons a t ih =>
    have ha : a.data.contains ' ' = false := h a (by simp)
    have ht : ∀ x ∈ t, x.data.contains ' ' = false := fun x hx => h x (by simp [hx])
    have hq : quoteIfSpace a = a := by
      unfold quoteIfSpace
      rw [ha]
      simp
    simp [hq, ih ht]

theorem decorateLines_false (s : SubState) (rows : List String) :
    decorateLines s false rows = catLines rows := by
  induction rows with
  | nil => rfl
  | cons r rs ih => simp [decorateLines, catLines, ih]

theorem decorateLines_header_append (s : SubState) {header : List String}
    (rest : List String) (hh : ∀ r ∈ header, isHeaderLine s.mode r = true) :
    decorateLines s true (header ++ rest)
      = catLines header ++ decorateLines s true rest := by
  induction header with
  | nil => simp [catLines]
  | cons r rs ih =>
    have h1 : isHeaderLine s.mode r = true := hh r (by simp)
    have h2 : ∀ x ∈ rs, isHeaderLine s.mode x = true :=
      fun x hx => hh x (by simp [hx])
    simp [decorateLines, catLines, h1, ih h2, String.append_assoc]

theorem strTruthy_some {s : String} (h : ¬ s = "") : strTruthy (some s) = true := by
  simp [strTruthy, h]

theorem str_append_empty (s : String) : s ++ "" = s :=
  strExt (by simp [String.data_append])

theorem str_mk_data (s : String) : String.mk s.data = s := rfl

/-! ## Concrete test fixtures -/

/-- Environment with no files and no directories. -/
def env0 : Env := ⟨fun _ => none, fun _ => false⟩

/-- Environment holding a three-line file `data.txt`. -/
def env5 : Env := ⟨fun f => if f = "data.txt" then some ["a", "b", "c"] else none, fun _ => false⟩

/-- Request with notification to `u@ufl.edu` in on-failure mode. -/
def cfg8 : SubState := { trueArgs := ["job.qsub"], sendEmail := some "u@ufl.edu", dirname := "/opt/sub" }

/-! ## Claim theorems -/

/-- C1 (counterexample). The claim fails on the code: `makeCmdline` is
not free of side effects. On a request whose script argument contains
a space, composing quotes the argument in place (the positional
argument list changes), and composing again on the resulting object
state yields a different command string. -/
theorem makeCmdline_not_pure :
    (makeCmdline env0 { trueArgs := ["run me.sh"] }).2.trueArgs ≠ ["run me.sh"]
    ∧ (makeCmdline env0 ((makeCmdline env0 { trueArgs := ["run me.sh"] }).2)).1
        ≠ (makeCmdline env0 { trueArgs := ["run me.sh"] }).1 := by
  constructor
  · decide
  · decide

/-- C1 (amended). For every submission request in which no positional
argument contains a space character, `makeCmdline` leaves the request
state unchanged and composing twice yields byte-identical command
strings; in general the method rewrites `trueArgs`, quoting in place
every argument containing a space. -/
theorem makeCmdline_space_free_pure (env : Env) (s : SubState)
    (h : ∀ a ∈ s.trueArgs, a.data.contains ' ' = false) :
    (makeCmdline env s).2 = s
    ∧ (makeCmdline env ((makeCmdline env s).2)).1 = (makeCmdline env s).1 := by
  have hm : s.trueArgs.map quoteIfSpace = s.trueArgs := map_quoteIfSpace_id h
  have h2 : (makeCmdline env s).2 = s := by
    simp [makeCmdline, hm]
  exact ⟨h2, by rw [h2]⟩

/-- Witness for C1 (amended) at a concrete space-free request. -/
theorem makeCmdline_space_free_pure_witness :
    (∀ a ∈ ({ trueArgs := ["job.qsub", "x"] } : SubState).trueArgs, a.data.contains ' ' = false)
    ∧ ((makeCmdline env0 { trueArgs := ["job.qsub", "x"] }).2 = { trueArgs := ["job.qsub", "x"] }
       ∧ (makeCmdline env0 ((makeCmdline env0 { trueArgs := ["job.qsub", "x"] }).2)).1
           = (makeCmdline env0 { trueArgs := ["job.qsub", "x"] }).1) :=
  ⟨by decide, makeCmdline_space_free_pure env0 { trueArgs := ["job.qsub", "x"] } (by decide)⟩

/-- C3. `submitScript` exits with the distinct status 2 whenever the
error channel produced any content, regardless of the output channel;
with an empty error channel the first output line is parsed as an
integer job id (`12345` yields `12345`); a non-integer or empty first
line raises `ValueError` (reported by the top-level handler) instead
of being silently swallowed. -/
theorem submitScript_contract :
    (∀ o e : String, e ≠ "" → submitScript o e = .exited 2)
    ∧ submitScript "12345\n" "" = .jobid 12345
    ∧ (∀ o : String, pyInt? (pyRstripCRLF ⟨takeLine o.data⟩) = none →
        submitScript o "" = .valueError (pyRstripCRLF ⟨takeLine o.data⟩))
    ∧ submitScript "" "" = .valueError "" := by
  refine ⟨?_, by decide, ?_, by decide⟩
  · intro o e he
    simp [submitScript, he]
  · intro o h
    simp [submitScript, h]

/-- Witness for C3 at concrete channel contents. -/
theorem submitScript_contract_witness :
    (("err" : String) ≠ "" ∧ submitScript "12345\n" "err" = .exited 2)
    ∧ (pyInt? (pyRstripCRLF ⟨takeLine ("abc\n" : String).data⟩) = none
       ∧ submitScript "abc\n" "" = .valueError (pyRstripCRLF ⟨takeLine ("abc\n" : String).data⟩)) :=
  ⟨⟨by decide, submitScript_contract.1 "12345\n" "err" (by decide)⟩,
   ⟨by decide, submitScript_contract.2.2.1 "abc\n" (by decide)⟩⟩

/-- C2. For every script splitting as header rows (each empty, shebang
or directive after stripping), a first non-header row, and a body,
decoration emits: the header rows unchanged, then — in this order — a
blank line with the echo of the reconstructed command line, the echo
of the start timestamp, the capture of the working directory, the
capture of the start epoch, the file-array extraction line exactly
when a file array was requested, then the triggering row itself, then
every remaining body row unchanged, then the trailer. -/
theorem decorate_inserts_instrumentation (s : SubState) (header : List String)
    (trig : String) (rest : List String)
    (hh : ∀ r ∈ header, isHeaderLine s.mode r = true)
    (ht : isHeaderLine s.mode trig = false) :
    decorateScript s (header ++ trig :: rest)
      = catLines header
        ++ ("\necho %Commandline: " ++ String.intercalate " " s.trueArgs ++ "\n"
            ++ "echo %Started: `date`\n"
            ++ "_ORIG_PWD=$PWD\n"
            ++ "_SUBMIT_TS=$(date +%s)\n\n"
            ++ (if strTruthy s.fileArray then fileArrayLine s else ""))
        ++ (trig ++ catLines rest)
        ++ trailer s := by
  unfold decorateScript
  rw [decorateLines_header_append s (trig :: rest) hh]
  simp [decorateLines, ht, decorateLines_false, instrBlock, String.append_assoc]

/-- Witness for C2 on a concrete slurm script with two header rows and
two body rows. -/
theorem decorate_inserts_instrumentation_witness :
    (∀ r ∈ (["#!/bin/bash\n", "#SBATCH -N1\n"] : List String),
       isHeaderLine ({ trueArgs := ["job.qsub"] } : SubState).mode r = true)
    ∧ isHeaderLine ({ trueArgs := ["job.qsub"] } : SubState).mode "echo hi\n" = false
    ∧ decorateScript { trueArgs := ["job.qsub"] }
        (["#!/bin/bash\n", "#SBATCH -N1\n"] ++ "echo hi\n" :: ["date\n"])
        = catLines ["#!/bin/bash\n", "#SBATCH -N1\n"]
          ++ ("\necho %Commandline: "
              ++ String.intercalate " " ({ trueArgs := ["job.qsub"] } : SubState).trueArgs ++ "\n"
              ++ "echo %Started: `date`\n"
              ++ "_ORIG_PWD=$PWD\n"
              ++ "_SUBMIT_TS=$(date +%s)\n\n"
              ++ (if strTruthy ({ trueArgs := ["job.qsub"] } : SubState).fileArray
                  then fileArrayLine { trueArgs := ["job.qsub"] } else ""))
          ++ ("echo hi\n" ++ catLines ["date\n"])
          ++ trailer { trueArgs := ["job.qsub"] } :=
  ⟨by decide, by decide,
   decorate_inserts_instrumentation { trueArgs := ["job.qsub"] }
     ["#!/bin/bash\n", "#SBATCH -N1\n"] "echo hi\n" ["date\n"] (by decide) (by decide)⟩

/-- C4. The composed command factors as a prefix, the dependency
clause and a suffix; the dependency clause is empty exactly when the
dependency list is empty, and consists of comma-joined `afterok:<id>`
tokens otherwise; at intake, a `-after 0` is dropped, so
`-after 100 -after 0` leaves only `100` and yields a command
containing `afterok:100`, and `-after 0` alone leaves no dependency
and a command with no `afterok` at all. -/
theorem depClause_iff_and_intake :
    (∀ (env : Env) (s : SubState),
       (makeCmdline env s).1 = cmdPre env s ++ depClause s.afterArgs ++ cmdPost s)
    ∧ (∀ l : List String, depClause l = "" ↔ l = [])
    ∧ resAfter (parseArgs env0 ["-after", "100", "-after", "0", "job.qsub"]) = ["100"]
    ∧ resAfter (parseArgs env0 ["-after", "0", "job.qsub"]) = []
    ∧ depClause ["100"] = " -d afterok:100"
    ∧ containsSub "afterok:100".data
        (resCmd env0 (parseArgs env0 ["-after", "100", "-after", "0", "job.qsub"])).data = true
    ∧ containsSub "afterok".data
        (resCmd env0 (parseArgs env0 ["-after", "0", "job.qsub"])).data = false := by
  refine ⟨?_, ?_, by decide, by decide, by decide, by decide, by decide⟩
  · intro env s
    simp [makeCmdline, cmdPre, cmdPost, String.append_assoc]
  · intro l
    cases l with
    | nil => simp [depClause]
    | cons a t =>
      have hd : depClause (a :: t)
          = " -d " ++ String.intercalate "," ((a :: t).map (fun x => "afterok:" ++ x)) := by
        simp [depClause]
      rw [hd]
      constructor
      · intro h
        have hdata := congrArg String.data h
        rw [String.data_append] at hdata
        simp at hdata
      · intro h
        exact absurd h (by simp)

/-- C5. For a file-array request `name%limit` (one `%`, file `name`
existing with `N` lines), intake sets the array spec to `1-N` with the
original concurrency suffix `%limit` appended unchanged, and resets
`fileArray` to the bare file name; without a `%` suffix the array spec
is exactly `1-N`. -/
theorem fileArray_sets_array_spec :
    (∀ (env : Env) (s : SubState) (name limit : String) (ls : List String),
       '%' ∉ name.data → '%' ∉ limit.data →
       s.fileArray = some (name ++ "%" ++ limit) →
       env.files name = some ls →
       processFileArray env s
         = .ok { s with array := some ("1-" ++ toString ls.length ++ "%" ++ limit),
                        fileArray := some name })
    ∧ (∀ (env : Env) (s : SubState) (name : String) (ls : List String),
       '%' ∉ name.data → ¬ name = "" →
       s.fileArray = some name →
       env.files name = some ls →
       processFileArray env s
         = .ok { s with array := some ("1-" ++ toString ls.length),
                        fileArray := some name }) := by
  constructor
  · intro env s name limit ls hn hl hfa hf
    have hdata : (name ++ "%" ++ limit).data = name.data ++ '%' :: limit.data := by
      simp [String.data_append]
    have hne : ¬ (name ++ "%" ++ limit) = "" := by
      intro h
      have hd := congrArg String.data h
      rw [hdata] at hd
      cases name.data <;> simp at hd
    have hsplit : splitOnChar '%' (name.data ++ '%' :: limit.data)
        = name.data :: splitOnChar '%' limit.data :=
      splitOnChar_append limit.data hn
    have hlim : splitOnChar '%' limit.data = [limit.data] := splitOnChar_ne hl
    simp [processFileArray, hfa, strTruthy_some hne, hsplit, hlim, hf, countLines,
          str_mk_data]
  · intro env s name ls hn hne hfa hf
    have hsplit : splitOnChar '%' name.data = [name.data] := splitOnChar_ne hn
    simp [processFileArray, hfa, strTruthy_some hne, hsplit, hf, countLines, str_mk_data]

/-- Witness for C5 on a three-line file `data.txt` with suffix `%4`. -/
theorem fileArray_sets_array_spec_witness :
    ('%' ∉ ("data.txt" : String).data
     ∧ processFileArray env5 { fileArray := some ("data.txt" ++ "%" ++ "4") }
         = .ok { ({ fileArray := some ("data.txt" ++ "%" ++ "4") } : SubState) with
                   array := some ("1-" ++ toString (["a", "b", "c"] : List String).length ++ "%" ++ "4"),
                   fileArray := some "data.txt" })
    ∧ processFileArray env5 { fileArray := some "data.txt" }
        = .ok { ({ fileArray := some "data.txt" } : SubState) with
                  array := some ("1-" ++ toString (["a", "b", "c"] : List String).length),
                  fileArray := some "data.txt" } :=
  ⟨⟨by decide,
    fileArray_sets_array_spec.1 env5 { fileArray := some ("data.txt" ++ "%" ++ "4") }
      "data.txt" "4" ["a", "b", "c"] (by decide) (by decide) rfl (by decide)⟩,
   fileArray_sets_array_spec.2 env5 { fileArray := some "data.txt" }
     "data.txt" ["a", "b", "c"] (by decide) (by decide) rfl (by decide)⟩

/-- C6 (counterexample). The claim of exactly five tab-separated
fields fails: `isoformat` is called with a tab separator, so the
timestamp itself contains a tab and a concrete record tab-splits into
six fields, not five. -/
theorem logRecord_six_fields :
    logRecord ⟨"2023-12-07", "03:54:43"⟩ 12345 "alb" "proj/job.qsub" "/home/alb"
      = "2023-12-07\t03:54:43\t12345\talb\tjob.qsub\t/home/alb\n"
    ∧ ¬ (splitOnChar '\t'
          ("2023-12-07\t03:54:43\t12345\talb\tjob.qsub\t/home/alb" : String).data).length = 5
    ∧ (splitOnChar '\t'
        ("2023-12-07\t03:54:43\t12345\talb\tjob.qsub\t/home/alb" : String).data).length = 6 := by
  refine ⟨by decide, by decide, by decide⟩

/-- C6 (amended). Every appended record is a single newline-terminated
line whose tab-split yields six fields in order: the ISO date, the ISO
time of day (the timestamp's internal separator is itself a tab), the
job identifier, the invoking user, the script basename and the working
directory — provided the individual fields contain no tab or newline. -/
theorem logRecord_fields (now : PyDatetime) (jobid : Int) (user script cwd : String)
    (hd : '\t' ∉ now.dateStr.data) (hd2 : '\n' ∉ now.dateStr.data)
    (htm : '\t' ∉ now.timeStr.data) (htm2 : '\n' ∉ now.timeStr.data)
    (hj : '\t' ∉ (toString jobid).data) (hj2 : '\n' ∉ (toString jobid).data)
    (hu : '\t' ∉ user.data) (hu2 : '\n' ∉ user.data)
    (hb : '\t' ∉ (pyBasename script).data) (hb2 : '\n' ∉ (pyBasename script).data)
    (hc : '\t' ∉ cwd.data) (hc2 : '\n' ∉ cwd.data) :
    (logRecord now jobid user script cwd).data
      = (now.dateStr.data ++ '\t' :: (now.timeStr.data ++ '\t' :: ((toString jobid).data
          ++ '\t' :: (user.data ++ '\t' :: ((pyBasename script).data
          ++ '\t' :: cwd.data))))) ++ ['\n']
    ∧ '\n' ∉ (now.dateStr.data ++ '\t' :: (now.timeStr.data ++ '\t' :: ((toString jobid).data
        ++ '\t' :: (user.data ++ '\t' :: ((pyBasename script).data ++ '\t' :: cwd.data)))))
    ∧ splitOnChar '\t' (now.dateStr.data ++ '\t' :: (now.timeStr.data
        ++ '\t' :: ((toString jobid).data ++ '\t' :: (user.data
        ++ '\t' :: ((pyBasename script).data ++ '\t' :: cwd.data)))))
        = [now.dateStr.data, now.timeStr.data, (toString jobid).data, user.data,
           (pyBasename script).data, cwd.data] := by
  refine ⟨?_, ?_, ?_⟩
  · simp [logRecord, isoformat, String.data_append, List.append_assoc]
  · simp [List.mem_append, List.mem_cons, hd2, htm2, hj2, hu2, hb2, hc2]
  · rw [splitOnChar_append _ hd, splitOnChar_append _ htm, splitOnChar_append _ hj,
        splitOnChar_append _ hu, splitOnChar_append _ hb, splitOnChar_ne hc]

/-- Witness for C6 (amended) at a concrete record. -/
theorem logRecord_fields_witness :
    ('\t' ∉ ("2023-12-07" : String).data
     ∧ '\t' ∉ (toString (12345 : Int)).data)
    ∧ splitOnChar '\t' (("2023-12-07" : String).data
        ++ '\t' :: (("03:54:43" : String).data ++ '\t' :: ((toString (12345 : Int)).data
        ++ '\t' :: (("alb" : String).data ++ '\t' :: ((pyBasename "proj/job.qsub").data
        ++ '\t' :: ("/home/alb" : String).data)))))
        = [("2023-12-07" : String).data, ("03:54:43" : String).data,
           (toString (12345 : Int)).data, ("alb" : String).data,
           (pyBasename "proj/job.qsub").data, ("/home/alb" : String).data] :=
  ⟨⟨by decide, by decide⟩,
   (logRecord_fields ⟨"2023-12-07", "03:54:43"⟩ 12345 "alb" "proj/job.qsub" "/home/alb"
     (by decide) (by decide) (by decide) (by decide) (by decide) (by decide)
     (by decide) (by decide) (by decide) (by decide) (by decide) (by decide)).2.2⟩

/-- C7 (counterexample). The claim that every `@` in the done-file
name is replaced fails: for the name `a@b@c` only the first `@`
becomes the job-id variable, and the emitted done-file line still
contains a literal `@` even though the job-id variable itself has
none. -/
theorem doneFile_second_at_unreplaced :
    substDoneFile .slurm "a@b@c" = "a${SLURM_JOBID}b@c"
    ∧ '@' ∈ (substDoneFile .slurm "a@b@c").data
    ∧ '@' ∉ (jobidVar .slurm).data
    ∧ containsSub ("echo $_RETCODE > a${SLURM_JOBID}b@c\n" : String).data
        (trailer { doneFile := some "a@b@c" }).data = true := by
  refine ⟨by decide, by decide, by decide, by decide⟩

/-- C7 (amended). The decorated trailer writes the captured exit code
into the requested done-file, whose name has the scheduler's job-id
variable substituted for the first occurrence of `@` (names without
`@` are unchanged; occurrences after the first are left in place). -/
theorem doneFile_first_at_replaced :
    (∀ (m : SMode) (pre post : String), '@' ∉ pre.data →
       substDoneFile m (pre ++ "@" ++ post) = pre ++ jobidVar m ++ post)
    ∧ (∀ (m : SMode) (df : String), '@' ∉ df.data → substDoneFile m df = df)
    ∧ (∀ (s : SubState) (df : String), s.doneFile = some df → ¬ df = "" →
         trailer s = "_RETCODE=$?\n"
           ++ ("echo $_RETCODE > " ++ substDoneFile s.mode df ++ "\n")
           ++ trailerRest s) := by
  refine ⟨?_, ?_, ?_⟩
  · intro m pre post h
    apply strExt
    have hdata : (pre ++ "@" ++ post).data = pre.data ++ '@' :: post.data := by
      simp [String.data_append]
    simp [substDoneFile, hdata, replFirstAt_first post.data h, String.data_append,
          List.append_assoc]
  · intro m df h
    exact strExt (by simp [substDoneFile, replFirstAt_not_mem h])
  · intro s df h hne
    simp [trailer, h, strTruthy_some hne, String.append_assoc]

/-- Witness for C7 (amended) at concrete done-file names. -/
theorem doneFile_first_at_replaced_witness :
    ('@' ∉ ("result." : String).data
     ∧ substDoneFile .slurm ("result." ++ "@" ++ "") = "result." ++ jobidVar .slurm ++ "")
    ∧ (¬ ("done.txt" : String) = ""
       ∧ trailer { doneFile := some "done.txt" }
           = "_RETCODE=$?\n"
             ++ ("echo $_RETCODE > "
                 ++ substDoneFile ({ doneFile := some "done.txt" } : SubState).mode "done.txt"
                 ++ "\n")
             ++ trailerRest { doneFile := some "done.txt" }) :=
  ⟨⟨by decide, doneFile_first_at_replaced.1 .slurm "result." "" (by decide)⟩,
   ⟨by decide, doneFile_first_at_replaced.2.2 { doneFile := some "done.txt" } "done.txt"
      rfl (by decide)⟩⟩

/-- C8 (code bug). The instrumentation captures the original directory
into `_ORIG_PWD`, and the unconditional notification line passes
`$_ORIG_PWD`, but the conditional (on-failure) notification line
passes `$ORIG_PWD` — a variable the decorated script never sets — so
its sixth-from-last positional value is not the captured directory. -/
theorem notify_cond_wrong_pwd_var :
    containsSub ("_ORIG_PWD=$PWD\n" : String).data (instrBlock cfg8).data = true
    ∧ emailPart cfg8
        = "if [[ \"$_RETCODE\" != \"0\" ]]; then /opt/sub/submit -em u@ufl.edu $SLURM_JOB_ID $_RETCODE $(($_SUBMIT_TS2 - $_SUBMIT_TS)) $ORIG_PWD \"job.qsub\"; fi\n"
    ∧ containsSub ("$_ORIG_PWD" : String).data (emailPart cfg8).data = false
    ∧ containsSub ("$_ORIG_PWD" : String).data
        (emailPart { cfg8 with emailAlways := true }).data = true := by
  refine ⟨by decide, by decide, by decide, by decide⟩

/-- C9. A script whose rows are all header rows (shebang, directives,
blank lines) decorates to exactly the unchanged rows followed by the
trailer: the instrumentation block is never emitted, and this is not
an error. -/
theorem decorate_header_only (s : SubState) (rows : List String)
    (hh : ∀ r ∈ rows, isHeaderLine s.mode r = true) :
    decorateScript s rows = catLines rows ++ trailer s := by
  unfold decorateScript
  have h := decorateLines_header_append s [] hh
  rw [List.append_nil] at h
  rw [h]
  simp [decorateLines, str_append_empty]

/-- Witness for C9 on a concrete header-only script. -/
theorem decorate_header_only_witness :
    (∀ r ∈ (["#!/bin/bash\n", "#SBATCH -N1\n", " \n"] : List String),
       isHeaderLine ({} : SubState).mode r = true)
    ∧ decorateScript {} ["#!/bin/bash\n", "#SBATCH -N1\n", " \n"]
        = catLines ["#!/bin/bash\n", "#SBATCH -N1\n", " \n"] ++ trailer {} :=
  ⟨by decide, decorate_header_only {} ["#!/bin/bash\n", "#SBATCH -N1\n", " \n"] (by decide)⟩

/-- C10. Header classification strips each row before testing it: a
row of only whitespace classifies as a header row, prefixing any row
with whitespace never changes its classification (so a
whitespace-indented shebang or directive row stays a header row), and
a row classified as header is passed through unchanged with the state
machine remaining in the header state. -/
theorem header_strip_classification :
    (∀ (m : SMode) (row : String), (∀ c ∈ row.data, isWS c = true) →
       isHeaderLine m row = true)
    ∧ (∀ (m : SMode) (w rest : String), (∀ c ∈ w.data, isWS c = true) →
       isHeaderLine m (w ++ rest) = isHeaderLine m rest)
    ∧ (∀ (s : SubState) (r : String) (rows : List String),
       isHeaderLine s.mode r = true →
       decorateLines s true (r :: rows) = r ++ decorateLines s true rows) := by
  refine ⟨?_, ?_, ?_⟩
  · intro m row h
    simp [isHeaderLine, pyStripL_all_ws h]
  · intro m w rest h
    simp [isHeaderLine, String.data_append, pyStripL_ws_prefix rest.data h]
  · intro s r rows h
    simp [decorateLines, h]

/-- Witness for C10 on whitespace-only and whitespace-indented rows. -/
theorem header_strip_classification_witness :
    ((∀ c ∈ ("  \t \n" : String).data, isWS c = true)
     ∧ isHeaderLine .slurm "  \t \n" = true)
    ∧ ((∀ c ∈ ("   " : String).data, isWS c = true)
       ∧ isHeaderLine .slurm ("   " ++ "#SBATCH -N1\n") = isHeaderLine .slurm "#SBATCH -N1\n")
    ∧ (isHeaderLine ({} : SubState).mode "#!/bin/sh\n" = true
       ∧ decorateLines {} true ["#!/bin/sh\n", "body\n"]
           = "#!/bin/sh\n" ++ decorateLines {} true ["body\n"]) :=
  ⟨⟨by decide, header_strip_classification.1 .slurm "  \t \n" (by decide)⟩,
   ⟨by decide, header_strip_classification.2.1 .slurm "   " "#SBATCH -N1\n" (by decide)⟩,
   ⟨by decide, header_strip_classification.2.2 {} "#!/bin/sh\n" ["body\n"] (by decide)⟩⟩

end SubmitPy
